import Mathlib

/-!
Shallow embedding of the PNGtoICO core (src/png_parser.rs, src/ico_writer.rs).

Files are modelled as lists of bytes (`List Nat`, each element intended `< 256`);
machine integers are `Nat` with explicit `% 2^w` wherever a Rust cast truncates.
Rust's fallible functions (`Result<T, &'static str>`) become `Except String T`
carrying the source's literal error messages.  Places where the Rust code can
panic (out-of-bounds slicing) are modelled by an explicit `panic` outcome.
-/

namespace PngToIco

/-- Big-endian interpretation of a byte list, as in the source's
`uNN::from_be_bytes`. -/
def beNat (l : List Nat) : Nat := l.foldl (fun a b => a * 256 + b) 0

/-- Little-endian 2-byte encoding of a `u16` value, as in `u16::to_le_bytes`. -/
def u16le (n : Nat) : List Nat := [n % 256, n / 256 % 256]

/-- Little-endian 4-byte encoding of a `u32` value, as in `u32::to_le_bytes`. -/
def u32le (n : Nat) : List Nat :=
  [n % 256, n / 256 % 256, n / 65536 % 256, n / 16777216 % 256]

/-- The canonical 8-byte PNG signature 0x89 'P' 'N' 'G' CR LF 0x1A LF. -/
def pngSignature : List Nat := [137, 80, 78, 71, 13, 10, 26, 10]

/-- Error messages, verbatim from the source (`&'static str` error values). -/
def signatureErrMsg : String := "Could not verify PNG signature."

def notHeaderErrMsg : String := "First chunk was not header. This is required."

def unknownChunkErrMsg : String := "Unknown chunk type."

def headerParseErrMsg : String := "Could not parse header data."

def widthErrMsg : String := "Image width cannot be more than 256px."

def heightErrMsg : String := "Image height cannot be more than 256px."

def openPngErrMsg : String := "Could not open png file."

/-- `PngMetadata` from src/png_parser.rs.  The writer (src/ico_writer.rs)
consumes the record through the `crate::png::png_meta` module, which is not
among the given sources; per the spec's data model and one-way data flow the
writer's `x`/`y`/`bit_depth` fields are this record's
`width`/`height`/`bit_depth`. -/
structure PngMetadata where
  width : Nat
  height : Nat
  bit_depth : Nat
  color_type : Nat
  compression_method : Nat
  filter_method : Nat
  interlace_method : Nat
deriving Repr, DecidableEq

/-- `ChunkType` from src/png_parser.rs. -/
inductive ChunkType where
  | Header
  | Palette
  | Data
  | DataEnd
deriving Repr, DecidableEq

/-- `ChunkType::parse`: classify a 4-byte ASCII tag.  The tags are the byte
strings "IHDR", "PLTE", "IDAT", "IEND". -/
def ChunkType.parse (name : List Nat) : Except String ChunkType :=
  if name = [73, 72, 68, 82] then .ok .Header
  else if name = [80, 76, 84, 69] then .ok .Palette
  else if name = [73, 68, 65, 84] then .ok .Data
  else if name = [73, 69, 78, 68] then .ok .DataEnd
  else .error unknownChunkErrMsg

/-- `ChunkData` from src/png_parser.rs. -/
inductive ChunkData where
  | Header (info : PngMetadata)
  | Data (bytes : List Nat)
deriving Repr, DecidableEq

/-- `PngParser::parse_header_chunk`: decode the 13 header-body bytes as
big-endian fields width(4), height(4), bitDepth(1), colorType(1),
compressionMethod(1), filterMethod(1), interlaceMethod(1).  The only caller,
`parse_header`, always passes exactly 13 bytes (the source's slice indexing
would panic on fewer, a case unreachable from `parse_header`). -/
def parse_header_chunk (header_data : List Nat) : Except String ChunkData :=
  let width := beNat (header_data.take 4)
  let height := beNat ((header_data.drop 4).take 4)
  let bit_depth := beNat ((header_data.drop 8).take 1)
  let color_type := beNat ((header_data.drop 9).take 1)
  let compression_method := beNat ((header_data.drop 10).take 1)
  let filter_method := beNat ((header_data.drop 11).take 1)
  let interlace_method := beNat ((header_data.drop 12).take 1)
  .ok (ChunkData.Header
    { width, height, bit_depth, color_type, compression_method,
      filter_method, interlace_method })

/-- `PngParser::verify_signature`: compare the big-endian u64 of the first
8 bytes against the constant 9894494448401390090. -/
def verify_signature (signature : List Nat) : Bool :=
  beNat signature == 9894494448401390090

/-- Outcome of `PngParser::parse_header`: a metadata record, a returned error
value, or a Rust panic (out-of-bounds slice index). -/
inductive HeaderResult where
  | ok (info : PngMetadata)
  | err (msg : String)
  | panic
deriving Repr, DecidableEq

/-- `PngParser::parse_header` on the bytes of the file it read.  The source
slices `data[..8]` (panics when the file has fewer than 8 bytes) and
`data[12..29]` (panics when it has fewer than 29), reads the 4-byte tag at
offset 12, and accepts only an IHDR first chunk; the call
`Self::parse_chunk(&data[4..], ChunkType::Header)` dispatches directly to
`parse_header_chunk`, inlined here.  Any outcome of `ChunkType::parse` other
than `Ok(Header)` — including the unknown-tag error — falls to the single
`else` branch returning the not-header message. -/
def parse_header (data : List Nat) : HeaderResult :=
  if data.length < 8 then .panic
  else if ¬ verify_signature (data.take 8) then .err signatureErrMsg
  else if data.length < 29 then .panic
  else
    let d := (data.drop 12).take 17
    let chunk := d.take 4
    match ChunkType.parse chunk with
    | .ok ChunkType.Header =>
      match parse_header_chunk (d.drop 4) with
      | .ok (ChunkData.Header info) => .ok info
      | _ => .err headerParseErrMsg
    | _ => .err notHeaderErrMsg

/-- `write_icon_dir`: reserved=0, image type=1, image count=1, u16 LE each. -/
def write_icon_dir : List Nat := u16le 0 ++ u16le 1 ++ u16le 1

/-- `write_icon_dir_entry`.  The source re-reads the PNG file from disk; the
read is modelled by the `png_file` argument, `none` standing for an unreadable
file.  `png.x as u8` is `% 256`, `bit_depth as u16` is `% 65536`,
`len as u32` is `% 4294967296`; the offset field is the buffer length at that
point (always 18) cast to u32, plus 4 in u32 arithmetic. -/
def write_icon_dir_entry (buf : List Nat) (png : PngMetadata)
    (png_file : Option (List Nat)) : Except String (List Nat) :=
  let buf := buf ++ [if png.width == 256 then 0 else png.width % 256]
  let buf := buf ++ [if png.height == 256 then 0 else png.height % 256]
  let buf := buf ++ [0]
  let buf := buf ++ [0]
  let buf := buf ++ u16le 1
  let buf := buf ++ u16le (png.bit_depth % 65536)
  match png_file with
  | none => .error openPngErrMsg
  | some png_bytes =>
    let buf := buf ++ u32le (png_bytes.length % 4294967296)
    let buf := buf ++ u32le ((buf.length % 4294967296 + 4) % 4294967296)
    .ok (buf ++ png_bytes)

/-- `write_ico`: validate dimensions, then assemble directory, entry and the
raw PNG bytes.  On success the assembled buffer (the bytes written to the
`.ico` file) is returned; the final `std::fs::write` to disk is outside the
byte-level model. -/
def write_ico (png : PngMetadata) (png_file : Option (List Nat)) :
    Except String (List Nat) :=
  if png.width > 256 then .error widthErrMsg
  else if png.height > 256 then .error heightErrMsg
  else write_icon_dir_entry write_icon_dir png png_file

/-- The bytes a successful `write_ico` puts before the embedded PNG data:
6-byte directory and 16-byte directory entry. -/
def icoPrefix (png : PngMetadata) (fileLen : Nat) : List Nat :=
  [0, 0, 1, 0, 1, 0,
   if png.width == 256 then 0 else png.width % 256,
   if png.height == 256 then 0 else png.height % 256,
   0, 0, 1, 0] ++ u16le (png.bit_depth % 65536) ++
  u32le (fileLen % 4294967296) ++ u32le 22

/-- Concrete metadata of the spec's 16×16, 8-bit-depth, color-type-6 PNG. -/
def meta16 : PngMetadata :=
  { width := 16, height := 16, bit_depth := 8, color_type := 6,
    compression_method := 0, filter_method := 0, interlace_method := 0 }

/-- A minimal well-formed 29-byte PNG file for that metadata: signature,
4-byte chunk length, "IHDR", 13 header-body bytes. -/
def pngFile16 : List Nat :=
  pngSignature ++ [0, 0, 0, 13] ++ [73, 72, 68, 82] ++
  [0, 0, 0, 16, 0, 0, 0, 16, 8, 6, 0, 0, 0]


/-- On success `write_ico` returns the 22-byte header followed by the PNG
bytes. -/
theorem write_ico_ok_shape (png : PngMetadata) (f : List Nat)
    (h1 : ¬ png.width > 256) (h2 : ¬ png.height > 256) :
    write_ico png (some f) = .ok (icoPrefix png f.length ++ f) := by
  simp [write_ico, write_icon_dir_entry, write_icon_dir, icoPrefix, u16le, u32le, h1, h2]

/-- The fixed header before the image data is 22 bytes long. -/
theorem icoPrefix_length (png : PngMetadata) (n : Nat) :
    (icoPrefix png n).length = 22 := by
  simp [icoPrefix, u16le, u32le]

/-- Inversion: a successful `write_ico` call read some file, both dimensions
were within bounds, and the output has the fixed shape. -/
theorem write_ico_ok_inv (png : PngMetadata) (pf : Option (List Nat)) (out : List Nat)
    (h : write_ico png pf = .ok out) :
    ∃ f, pf = some f ∧ png.width ≤ 256 ∧ png.height ≤ 256 ∧
      out = icoPrefix png f.length ++ f := by
  have hw : ¬ png.width > 256 := by
    intro hgt
    rw [write_ico, if_pos hgt] at h
    exact Except.noConfusion h
  have hh : ¬ png.height > 256 := by
    intro hgt
    rw [write_ico, if_neg hw, if_pos hgt] at h
    exact Except.noConfusion h
  cases pf with
  | none =>
    exfalso
    rw [write_ico, if_neg hw, if_neg hh] at h
    simp [write_icon_dir_entry] at h
  | some f =>
    have hs := write_ico_ok_shape png f hw hh
    rw [h] at hs
    refine ⟨f, rfl, by omega, by omega, ?_⟩
    injection hs with hout


/-- C1 (counterexample): on the spec's own 16×16 scenario the offset field at
bytes 18–21 of the output is 22, not 26. -/
theorem C1_offset_counterexample :
    ((write_ico meta16 (some pngFile16)).toOption.map (fun o => (o.drop 18).take 4))
      = some [22, 0, 0, 0] ∧ [22, 0, 0, 0] ≠ [26, 0, 0, 0] :=
  ⟨by rfl, by decide⟩

/-- C1 (amended): for every successful `write_ico` call, the image data offset
field (little-endian u32 at output bytes 18–21) equals 22. -/
theorem C1_offset_field_eq_22 (png : PngMetadata) (pf : Option (List Nat))
    (out : List Nat) (h : write_ico png pf = .ok out) :
    (out.drop 18).take 4 = u32le 22 := by
  obtain ⟨f, rfl, hw, hh, rfl⟩ := write_ico_ok_inv png pf out h
  simp [icoPrefix, u16le, u32le]

theorem C1_offset_field_eq_22_witness :
    ((icoPrefix meta16 29 ++ pngFile16).drop 18).take 4 = u32le 22 :=
  C1_offset_field_eq_22 meta16 (some pngFile16)
    (icoPrefix meta16 29 ++ pngFile16) (by rfl)

/-- A file with a valid PNG signature, a chunk-length field and the IHDR tag
but no header body: 16 bytes in total. -/
def truncatedFile : List Nat := pngSignature ++ [0, 0, 0, 13] ++ [73, 72, 68, 82]

/-- C2: on a file with fewer than 13 bytes after the IHDR tag, `parse_header`
panics (out-of-bounds slice `data[12..29]`) instead of returning the
truncated-data error the spec requires. -/
theorem C2_truncated_header_panics :
    parse_header truncatedFile = .panic ∧ truncatedFile.length = 16 := by decide

/-- C4 (counterexample): for a source file of exactly 2^32 bytes the size
field at bytes 14–17 stores 0, not the file length. -/
theorem C4_size_field_truncates :
    ((write_ico meta16 (some (List.replicate 4294967296 0))).toOption.map
      (fun o => (o.drop 14).take 4)) = some (u32le 0) ∧
    (List.replicate 4294967296 (0 : Nat)).length ≠ 0 := by
  have hlen : (List.replicate 4294967296 (0 : Nat)).length = 4294967296 :=
    List.length_replicate _ _
  constructor
  · rw [write_ico_ok_shape meta16 _ (by decide) (by decide), hlen]
    generalize List.replicate 4294967296 (0 : Nat) = big
    simp [icoPrefix, meta16, u16le, u32le]
    exact ⟨_, rfl, by simp⟩
  · rw [hlen]
    norm_num

/-- C4 (amended): for every successful `write_ico` call on a source file `f`,
the size field at bytes 14–17 is the little-endian u32 of `f.length % 2^32`
(hence the exact length whenever the file is shorter than 2^32 bytes). -/
theorem C4_size_field_mod (png : PngMetadata) (f : List Nat) (out : List Nat)
    (h : write_ico png (some f) = .ok out) :
    (out.drop 14).take 4 = u32le (f.length % 4294967296) := by
  obtain ⟨f', hf, hw, hh, rfl⟩ := write_ico_ok_inv png (some f) out h
  obtain rfl : f' = f := by injection hf with hf2; exact hf2.symm
  simp [icoPrefix, u16le, u32le]

theorem C4_size_field_mod_witness :
    ((icoPrefix meta16 29 ++ pngFile16).drop 14).take 4
      = u32le (pngFile16.length % 4294967296) :=
  C4_size_field_mod meta16 pngFile16 (icoPrefix meta16 29 ++ pngFile16) (by rfl)

/-- C5: round-trip — for every successful `write_ico` call the output bytes
from offset 22 on are exactly the source PNG file. -/
theorem C5_roundtrip (png : PngMetadata) (f : List Nat) (out : List Nat)
    (h : write_ico png (some f) = .ok out) : out.drop 22 = f := by
  obtain ⟨f', hf, hw, hh, rfl⟩ := write_ico_ok_inv png (some f) out h
  obtain rfl : f' = f := by injection hf with hf2; exact hf2.symm
  rw [List.drop_left' (icoPrefix_length _ _)]

theorem C5_roundtrip_witness :
    (icoPrefix meta16 29 ++ pngFile16).drop 22 = pngFile16 :=
  C5_roundtrip meta16 pngFile16 (icoPrefix meta16 29 ++ pngFile16) (by rfl)

/-- C7: whenever the metadata's width or height exceeds 256, `write_ico`
fails with the dimension error naming the offending axis, for every state of
the source file — including an unreadable one (`none`), showing the failure
happens before the PNG is read, and no output bytes are produced. -/
theorem C7_dimension_too_large (png : PngMetadata) (pf : Option (List Nat))
    (h : 256 < png.width ∨ 256 < png.height) :
    write_ico png pf = .error (if 256 < png.width then widthErrMsg else heightErrMsg) := by
  rw [write_ico]
  by_cases hw : 256 < png.width
  · rw [if_pos hw, if_pos hw]
  · rw [if_neg hw, if_pos (by omega : 256 < png.height), if_neg hw]

/-- Concrete 257-pixel-wide metadata. -/
def meta257 : PngMetadata :=
  { width := 257, height := 16, bit_depth := 8, color_type := 6,
    compression_method := 0, filter_method := 0, interlace_method := 0 }

theorem C7_dimension_too_large_witness :
    write_ico meta257 none
      = .error (if 256 < meta257.width then widthErrMsg else heightErrMsg) :=
  C7_dimension_too_large meta257 none (Or.inl (by decide))



/-- Any tag other than IHDR — recognized or not — classifies to something
other than `Ok(Header)`. -/
theorem chunk_parse_ne_header (name : List Nat) (h : name ≠ [73, 72, 68, 82]) :
    ChunkType.parse name ≠ .ok ChunkType.Header := by
  rw [ChunkType.parse, if_neg h]
  split_ifs <;> simp

/-- A 29-byte file with valid signature whose first chunk tag is "XXXX". -/
def unknownTagFile : List Nat :=
  pngSignature ++ [0, 0, 0, 13] ++ [88, 88, 88, 88] ++
  [0, 0, 0, 16, 0, 0, 0, 16, 8, 6, 0, 0, 0]

/-- C3 (counterexample): on an unrecognized first-chunk tag, `parse_header`
returns the not-header error, not the unknown-chunk error the claim names. -/
theorem C3_unknown_tag_counterexample :
    parse_header unknownTagFile = .err notHeaderErrMsg ∧
    notHeaderErrMsg ≠ unknownChunkErrMsg :=
  ⟨by rfl, by decide⟩

/-- C3 (amended): for every file with a valid signature and at least 29
bytes whose first-chunk tag is not IHDR, `parse_header` fails with the single
not-header error, whether or not the tag is recognized; the unknown-chunk
error produced by `ChunkType::parse` is discarded. -/
theorem C3_non_ihdr_tag_not_header (data : List Nat)
    (hlen : 29 ≤ data.length)
    (hsig : data.take 8 = pngSignature)
    (htag : (data.drop 12).take 4 ≠ [73, 72, 68, 82]) :
    parse_header data = .err notHeaderErrMsg := by
  have hchunk : ((data.drop 12).take 17).take 4 = (data.drop 12).take 4 := by
    rw [List.take_take]
    norm_num
  simp only [parse_header, hchunk]
  rw [if_neg (by omega), if_neg (fun hn => hn (by rw [hsig]; rfl)),
    if_neg (by omega)]
  have hne := chunk_parse_ne_header _ htag
  rcases hp : ChunkType.parse ((data.drop 12).take 4) with msg | c
  · rfl
  · cases c
    · exact absurd hp hne
    · rfl
    · rfl
    · rfl

theorem C3_non_ihdr_tag_not_header_witness :
    parse_header (pngSignature ++ [0, 0, 0, 13] ++ [80, 76, 84, 69] ++
      [0, 0, 0, 16, 0, 0, 0, 16, 8, 6, 0, 0, 0]) = .err notHeaderErrMsg :=
  C3_non_ihdr_tag_not_header _ (by decide) (by decide) (by decide)



/-- Base-256 injectivity on 8 bounded digits: the u64 comparison in
`verify_signature` equals the constant exactly on the canonical signature. -/
theorem beNat_eq_magic_iff (a b c d e f g h : Nat)
    (_ha : a < 256) (hb : b < 256) (hc : c < 256) (hd : d < 256)
    (he : e < 256) (hf : f < 256) (hg : g < 256) (hh : h < 256) :
    (beNat [a, b, c, d, e, f, g, h] = 9894494448401390090 ↔
      [a, b, c, d, e, f, g, h] = pngSignature) := by
  simp only [beNat, List.foldl, pngSignature, List.cons.injEq, and_true]
  omega

/-- C10 (counterexample): an 8-byte all-zero file is shorter than 29 bytes,
yet `parse_header` returns the signature error — a discriminated error value —
rather than going out of bounds. -/
theorem C10_short_file_with_bad_signature :
    parse_header (List.replicate 8 0) = .err signatureErrMsg ∧
    (List.replicate 8 0).length < 29 := by decide

/-- C10 (amended): `parse_header` panics (slice out of bounds) on every file
shorter than 8 bytes, and on every file with a correct PNG signature shorter
than 29 bytes; files of at least 8 bytes with a wrong signature instead
return the signature error. -/
theorem C10_short_inputs_panic (data : List Nat)
    (h : data.length < 8 ∨ (data.take 8 = pngSignature ∧ data.length < 29)) :
    parse_header data = .panic := by
  rcases h with h | ⟨hsig, h29⟩
  · rw [parse_header, if_pos h]
  · have h8 : ¬ data.length < 8 := by
      have := congrArg List.length hsig
      simp [pngSignature] at this
      omega
    rw [parse_header, if_neg h8, if_neg (fun hn => hn (by rw [hsig]; rfl)),
      if_pos h29]

theorem C10_short_inputs_panic_witness :
    parse_header [] = .panic :=
  C10_short_inputs_panic [] (Or.inl (by decide))



/-- C8: on any file of at least 8 bytes (of in-range byte values),
`parse_header` fails with the signature error exactly when the first 8 bytes
differ from the canonical PNG signature; the u64 comparison against
9894494448401390090 implements exactly that check. -/
theorem C8_signature_iff (data : List Nat) (hlen : 8 ≤ data.length)
    (hbytes : ∀ b ∈ data, b < 256) :
    (parse_header data = .err signatureErrMsg ↔ data.take 8 ≠ pngSignature) := by
  rcases data with _ | ⟨a, data⟩; · simp at hlen
  rcases data with _ | ⟨b, data⟩; · simp at hlen
  rcases data with _ | ⟨c, data⟩; · simp at hlen
  rcases data with _ | ⟨d, data⟩; · simp at hlen
  rcases data with _ | ⟨e, data⟩; · simp at hlen
  rcases data with _ | ⟨f, data⟩; · simp at hlen
  rcases data with _ | ⟨g, data⟩; · simp at hlen
  rcases data with _ | ⟨h, data⟩; · simp at hlen
  have htake : (a::b::c::d::e::f::g::h::data).take 8 = [a, b, c, d, e, f, g, h] := rfl
  have hmagic := beNat_eq_magic_iff a b c d e f g h
    (hbytes a (by simp)) (hbytes b (by simp)) (hbytes c (by simp))
    (hbytes d (by simp)) (hbytes e (by simp)) (hbytes f (by simp))
    (hbytes g (by simp)) (hbytes h (by simp))
  rw [htake]
  by_cases hsig : [a, b, c, d, e, f, g, h] = pngSignature
  · refine iff_of_false ?_ (by simp [hsig])
    have hver : verify_signature ((a::b::c::d::e::f::g::h::data).take 8) = true := by
      rw [htake, hsig]; rfl
    rw [parse_header, if_neg (by simp), if_neg (fun hn => hn hver)]
    split
    · exact fun hx => HeaderResult.noConfusion hx
    · dsimp only
      split
      · exact fun hx => HeaderResult.noConfusion hx
      · intro hx
        injection hx with hmsg
        exact absurd hmsg (by decide)
  · refine iff_of_true ?_ hsig
    have hver : verify_signature [a, b, c, d, e, f, g, h] = false := by
      simp only [verify_signature, beq_eq_false_iff_ne, ne_eq]
      exact fun hx => hsig (hmagic.mp hx)
    rw [parse_header, if_neg (by simp), if_pos (by rw [htake]; simp [hver])]

theorem C8_signature_iff_witness :
    parse_header [1, 2, 3, 4, 5, 6, 7, 8, 9] = .err signatureErrMsg :=
  (C8_signature_iff [1, 2, 3, 4, 5, 6, 7, 8, 9] (by decide) (by decide)).mpr
    (by decide)



/-- C9: on every well-formed input — signature, any 4-byte chunk-length
field, the IHDR tag, 13 header-body bytes and anything after — `parse_header`
decodes the body as consecutive big-endian fields width(4), height(4),
bitDepth(1), colorType(1), compressionMethod(1), filterMethod(1),
interlaceMethod(1). -/
theorem C9_header_fields (l1 l2 l3 l4 w1 w2 w3 w4 h1 h2 h3 h4 bd ct cm fm im : Nat)
    (rest : List Nat) :
    parse_header (pngSignature ++ [l1, l2, l3, l4, 73, 72, 68, 82,
      w1, w2, w3, w4, h1, h2, h3, h4, bd, ct, cm, fm, im] ++ rest) =
    .ok { width := beNat [w1, w2, w3, w4], height := beNat [h1, h2, h3, h4],
          bit_depth := bd, color_type := ct, compression_method := cm,
          filter_method := fm, interlace_method := im } := by
  have ht : (pngSignature ++ [l1, l2, l3, l4, 73, 72, 68, 82,
      w1, w2, w3, w4, h1, h2, h3, h4, bd, ct, cm, fm, im] ++ rest).take 8
      = pngSignature := by
    simp [pngSignature]
  have hver : verify_signature ((pngSignature ++ [l1, l2, l3, l4, 73, 72, 68, 82,
      w1, w2, w3, w4, h1, h2, h3, h4, bd, ct, cm, fm, im] ++ rest).take 8) = true := by
    rw [ht]; rfl
  rw [parse_header, if_neg (by simp [pngSignature]),
    if_neg (fun hn => hn hver), if_neg (by simp [pngSignature])]
  simp [pngSignature, ChunkType.parse, parse_header_chunk, beNat]



/-- C6: for a file that `parse_header` accepts with width and height at most
256, a successful `write_ico` on the same file puts
`(width == 256 ? 0 : width)` at output byte 6 and the analogous height value
at byte 7. -/
theorem C6_dimension_bytes (data : List Nat) (m : PngMetadata) (out : List Nat)
    (_hparse : parse_header data = .ok m)
    (hw : m.width ≤ 256) (hh : m.height ≤ 256)
    (hout : write_ico m (some data) = .ok out) :
    out[6]? = some (if m.width = 256 then 0 else m.width) ∧
    out[7]? = some (if m.height = 256 then 0 else m.height) := by
  obtain ⟨f, hf, _, _, rfl⟩ := write_ico_ok_inv m (some data) out hout
  constructor
  · by_cases h256 : m.width = 256
    · simp [icoPrefix, h256]
    · have : m.width % 256 = m.width := Nat.mod_eq_of_lt (by omega)
      simp [icoPrefix, h256, this]
  · by_cases h256 : m.height = 256
    · simp [icoPrefix, h256]
    · have : m.height % 256 = m.height := Nat.mod_eq_of_lt (by omega)
      simp [icoPrefix, h256, this]

theorem C6_dimension_bytes_witness :
    (icoPrefix meta16 29 ++ pngFile16)[6]?
      = some (if meta16.width = 256 then 0 else meta16.width) ∧
    (icoPrefix meta16 29 ++ pngFile16)[7]?
      = some (if meta16.height = 256 then 0 else meta16.height) :=
  C6_dimension_bytes pngFile16 meta16 (icoPrefix meta16 29 ++ pngFile16)
    (by rfl) (by decide) (by decide) (by rfl)


end PngToIco
